import Mathlib

/-!
Verification of the Strafe movement-mode prediction fragment
(`Source/PredictedMovement/Public/Strafe/StrafeMovement.h`).

The header carries two inline method bodies (`CalcVelocity`,
`ApplyVelocityBraking`), which are embedded directly from the source.
The remaining behaviour (mode transitions, flag codec, saved moves,
reconciliation) is declared in the header but implemented in a
translation unit that is not part of the sources; those parts are
modelled from the specification, as marked on each definition.
-/

namespace Strafe

/-! ## Friction substitution (inline bodies in the header) -/

/-- The queryable state of a `UStrafeMovement` component that the two
inline overrides read: the mode-specific friction configuration
(`GroundFrictionStrafing`, `BrakingFrictionStrafing`), the inherited
`bUseSeparateBrakingFriction` option, and the results of the
`IsStrafing()` and `IsMovingOnGround()` queries. -/
structure StrafeMovementState where
  GroundFrictionStrafing : ℚ
  BrakingFrictionStrafing : ℚ
  bUseSeparateBrakingFriction : Bool
  bIsStrafing : Bool
  bIsMovingOnGround : Bool
  deriving DecidableEq, Repr

/-- The argument tuple passed to `Super::CalcVelocity`. -/
structure SuperCalcVelocityCall where
  DeltaTime : ℚ
  Friction : ℚ
  bFluid : Bool
  BrakingDeceleration : ℚ
  deriving DecidableEq, Repr

/-- The argument tuple passed to `Super::ApplyVelocityBraking`. -/
structure SuperApplyVelocityBrakingCall where
  DeltaTime : ℚ
  Friction : ℚ
  BrakingDeceleration : ℚ
  deriving DecidableEq, Repr

/-- `UStrafeMovement::CalcVelocity` (StrafeMovement.h lines 75-82):
if `IsStrafing() && IsMovingOnGround()` then `Friction` is overwritten
with `GroundFrictionStrafing`; then `Super::CalcVelocity` is called
with `(DeltaTime, Friction, bFluid, BrakingDeceleration)`.  The result
records the arguments of that super call. -/
def CalcVelocity (s : StrafeMovementState) (DeltaTime Friction : ℚ)
    (bFluid : Bool) (BrakingDeceleration : ℚ) : SuperCalcVelocityCall :=
  let Friction :=
    if s.bIsStrafing && s.bIsMovingOnGround then s.GroundFrictionStrafing
    else Friction
  ⟨DeltaTime, Friction, bFluid, BrakingDeceleration⟩

/-- `UStrafeMovement::ApplyVelocityBraking` (StrafeMovement.h lines
83-90): if `IsStrafing() && IsMovingOnGround()` then `Friction` is
overwritten with `bUseSeparateBrakingFriction ? BrakingFrictionStrafing
: GroundFrictionStrafing`; then `Super::ApplyVelocityBraking` is called
with `(DeltaTime, Friction, BrakingDeceleration)`. -/
def ApplyVelocityBraking (s : StrafeMovementState)
    (DeltaTime Friction BrakingDeceleration : ℚ) :
    SuperApplyVelocityBrakingCall :=
  let Friction :=
    if s.bIsStrafing && s.bIsMovingOnGround then
      (if s.bUseSeparateBrakingFriction then s.BrakingFrictionStrafing
       else s.GroundFrictionStrafing)
    else Friction
  ⟨DeltaTime, Friction, BrakingDeceleration⟩

/-! ## Movement-mode controller (bodies not in the sources) -/

/-- Base locomotion movement modes of the character, as referenced by
the header comment on `CanStrafeInCurrentState` ("By default it is
allowed when walking or falling"). -/
inductive MovementMode where
  | Walking
  | Falling
  | Swimming
  | Flying
  | Disabled
  deriving DecidableEq, Repr

/-- Modelled from the spec: the body of
`UStrafeMovement::CanStrafeInCurrentState` is not in the sources (only
its declaration, StrafeMovement.h line 109).  Per the header comment
and the spec's policy gate, strafing may be entered exactly from the
allow-listed base states walking (grounded) or falling (airborne). -/
def CanStrafeInCurrentState (m : MovementMode) : Bool :=
  m = MovementMode.Walking || m = MovementMode.Falling

/-- The controller-owned movement state: the base locomotion mode, the
client intent bit `bWantsToStrafe` (header line 61) and the derived
active bit. -/
structure CtrlState where
  baseMode : MovementMode
  wantsStrafe : Bool
  strafeActive : Bool
  deriving DecidableEq, Repr

/-- Owner callbacks fired on confirmed transition edges
(`OnStartStrafe` / `OnEndStrafe`). -/
inductive ModeEvent where
  | started
  | ended
  deriving DecidableEq, Repr

/-- Modelled from the spec: the body of `UStrafeMovement::Strafe` is
not in the sources (only its declaration, StrafeMovement.h line 100).
Per the spec, `RequestMode` sets `wantsMode := true` and attempts
immediate activation: if the mode is not already active and
`CanEnterModeInCurrentState()` holds, it activates and fires the
"started" callback exactly once; otherwise it is a no-op that fires no
callback and raises no error. -/
def RequestMode (s : CtrlState) : CtrlState × List ModeEvent :=
  let s1 : CtrlState := { s with wantsStrafe := true }
  if !s1.strafeActive && CanStrafeInCurrentState s1.baseMode then
    ({ s1 with strafeActive := true }, [ModeEvent.started])
  else
    (s1, [])

/-- Modelled from the spec: the body of `UStrafeMovement::UnStrafe` is
not in the sources (only its declaration, StrafeMovement.h line 106).
Per the spec, `CancelMode` sets `wantsMode := false`; if the mode is
active it validates the geometric fit at the default stance (the
`fits` argument): on success it deactivates and fires the "ended"
callback, on failure the state remains active with no callback; if the
mode is already inactive it is a no-op with no callback. -/
def CancelMode (fits : Bool) (s : CtrlState) : CtrlState × List ModeEvent :=
  let s1 : CtrlState := { s with wantsStrafe := false }
  if s1.strafeActive then
    if fits then ({ s1 with strafeActive := false }, [ModeEvent.ended])
    else (s1, [])
  else
    (s1, [])

/-- Modelled from the spec: the per-tick retry of a deferred
Active→Inactive transition ("check retried next eligible tick until it
succeeds") is implemented in the missing translation unit.  Each tick
consumes one geometric-fit outcome and attempts `CancelMode` with it,
accumulating the fired callbacks in order. -/
def retryCancel : List Bool → CtrlState → CtrlState × List ModeEvent
  | [], s => (s, [])
  | f :: fs, s =>
    let r1 := CancelMode f s
    let r2 := retryCancel fs r1.1
    (r2.1, r1.2 ++ r2.2)

/-! ## Flag codec (bodies not in the sources) -/

/-- The named boolean flags packed into the compressed-flags byte:
`bWantsToStrafe` together with the inherited sibling flags (jump,
crouch from the base character, prone from the parent class). -/
structure FlagState where
  bPressedJump : Bool
  bWantsToCrouch : Bool
  bWantsToProne : Bool
  bWantsToStrafe : Bool
  deriving DecidableEq, Repr

/-- Modelled from the spec: the body of
`FSavedMove_Character_Strafe::GetCompressedFlags` is not in the
sources (only its declaration, StrafeMovement.h line 146).  Per the
spec's FlagCodec contract each named flag occupies a fixed bit
position of one byte; jump and crouch keep the base-class positions
(bits 0 and 1) and the prone and strafe mode bits occupy the custom
positions (bits 4 and 5). -/
def GetCompressedFlags (f : FlagState) : ℕ :=
  (if f.bPressedJump then 1 else 0) +
  (if f.bWantsToCrouch then 2 else 0) +
  (if f.bWantsToProne then 16 else 0) +
  (if f.bWantsToStrafe then 32 else 0)

/-- Modelled from the spec: the body of
`UStrafeMovement::UpdateFromCompressedFlags` is not in the sources
(only its declaration, StrafeMovement.h line 117).  It reads each
flag back from its fixed bit position, ignoring unknown bits. -/
def UpdateFromCompressedFlags (flags : ℕ) : FlagState :=
  ⟨flags.testBit 0, flags.testBit 1, flags.testBit 4, flags.testBit 5⟩

/-! ## Saved moves, replay and reconciliation (bodies not in the sources) -/

/-- Modelled from the spec: the concrete recording of
`FSavedMove_Character_Strafe` (`SetMoveFor`, StrafeMovement.h line
143) is not in the sources.  A saved move records the tick's
timestamp, its delta time, the recorded intent flag
(`bWantsToStrafe`, header line 137) and the resulting predicted
controller state. -/
structure SavedMove where
  timestamp : ℕ
  deltaTime : ℕ
  input : Bool
  state : CtrlState
  deriving DecidableEq, Repr

/-- Modelled from the spec: one resimulated controller tick — the
recorded intent drives `RequestMode` or `CancelMode` (client
resimulation performs the fit check successfully, matching the
accepted server state). -/
def simTick (input : Bool) (s : CtrlState) : CtrlState :=
  if input then (RequestMode s).1 else (CancelMode true s).1

/-- Modelled from the spec: regenerate a tail of the prediction buffer
by re-running the controller tick-by-tick for each discarded move's
recorded input, starting from the given (authoritative) state, and
repopulate the buffer with new SavedMove entries. -/
def resimulate (s : CtrlState) : List SavedMove → List SavedMove
  | [] => []
  | m :: ms =>
    let s1 := simTick m.input s
    { m with state := s1 } :: resimulate s1 ms

/-- Modelled from the spec: the body of
`UStrafeMovement::ClientUpdatePositionAfterServerUpdate` is not in the
sources (only its declaration, StrafeMovement.h line 115).  Given an
authoritative snapshot `(authTS, auth)`, locate the saved move with
matching timestamp; if none exists the buffer is unchanged (stale
acknowledgment, silently ignored); if it agrees with the authoritative
state the buffer is unchanged; if it disagrees, its state is replaced
by the authoritative state and every later move is discarded and
regenerated by resimulation from the authoritative state. -/
def reconcile (authTS : ℕ) (auth : CtrlState) :
    List SavedMove → List SavedMove
  | [] => []
  | m :: ms =>
    if m.timestamp = authTS then
      if m.state = auth then m :: ms
      else { m with state := auth } :: resimulate auth ms
    else
      m :: reconcile authTS auth ms

/-- Modelled from the spec: the predicting side's per-tick recording —
from a starting state and an ordered list of `(input, deltaTime)`
pairs, simulate each tick and append a SavedMove with the resulting
state; timestamps accumulate the delta times. -/
def replayMoves (s : CtrlState) (t0 : ℕ) :
    List (Bool × ℕ) → List SavedMove
  | [] => []
  | (input, dt) :: rest =>
    let s1 := simTick input s
    ⟨t0 + dt, dt, input, s1⟩ :: replayMoves s1 (t0 + dt) rest

end Strafe

namespace Strafe

/-- Concrete saved moves and authoritative state used to instantiate the
reconciliation theorem. -/
def moveAck : SavedMove := ⟨1, 1, false, ⟨MovementMode.Walking, false, false⟩⟩

/-- The buffered move at the corrected timestamp: the client predicted the
strafe request to be rejected. -/
def moveDiverged : SavedMove := ⟨2, 1, true, ⟨MovementMode.Walking, true, false⟩⟩

/-- A buffered move recorded after the divergence point. -/
def moveStale : SavedMove := ⟨3, 1, true, ⟨MovementMode.Walking, true, false⟩⟩

/-- The authoritative server state at timestamp 2: the strafe was accepted. -/
def authState : CtrlState := ⟨MovementMode.Walking, true, true⟩

/-- Helper: once the mode is inactive, further deferred-cancel ticks change
nothing and fire no callback. -/
theorem retryCancel_inactive (fits : List Bool) (s : CtrlState)
    (h : s.strafeActive = false) :
    (retryCancel fits s).1.strafeActive = false ∧ (retryCancel fits s).2 = [] := by
  induction fits generalizing s with
  | nil => exact ⟨h, rfl⟩
  | cons f fs ih =>
    have hc1 : (CancelMode f s).1 = { s with wantsStrafe := false } := by
      simp [CancelMode, h]
    have hc2 : (CancelMode f s).2 = [] := by
      simp [CancelMode, h]
    have ihs := ih { s with wantsStrafe := false } h
    simp only [retryCancel, hc1, hc2]
    exact ⟨ihs.1, by simp [ihs.2]⟩

/-- Claim C2: in `ApplyVelocityBraking`, when `IsStrafing()` and
`IsMovingOnGround()` both hold, the base implementation receives
`BrakingFrictionStrafing` if `bUseSeparateBrakingFriction` is set and
`GroundFrictionStrafing` otherwise; when either query fails, it receives
the caller's `Friction` unchanged. -/
theorem applyVelocityBraking_friction_substitution
    (s : StrafeMovementState) (dt f bd : ℚ) :
    (s.bIsStrafing = true → s.bIsMovingOnGround = true →
      ApplyVelocityBraking s dt f bd =
        ⟨dt, if s.bUseSeparateBrakingFriction then s.BrakingFrictionStrafing
             else s.GroundFrictionStrafing, bd⟩)
    ∧ ((s.bIsStrafing = false ∨ s.bIsMovingOnGround = false) →
      ApplyVelocityBraking s dt f bd = ⟨dt, f, bd⟩) := by
  constructor
  · intro h1 h2
    simp [ApplyVelocityBraking, h1, h2]
  · rintro (h | h) <;> simp [ApplyVelocityBraking, h]

/-- Witness for claim C2 at concrete inputs: with separate braking
friction enabled the base call receives the strafing braking friction,
and with strafing off it receives the caller's friction. -/
theorem applyVelocityBraking_friction_substitution_witness :
    ApplyVelocityBraking ⟨3, 5, true, true, true⟩ 1 7 2 = ⟨1, 5, 2⟩ ∧
    ApplyVelocityBraking ⟨3, 5, true, false, true⟩ 1 7 2 = ⟨1, 7, 2⟩ :=
  ⟨(applyVelocityBraking_friction_substitution ⟨3, 5, true, true, true⟩ 1 7 2).1 rfl rfl,
   (applyVelocityBraking_friction_substitution ⟨3, 5, true, false, true⟩ 1 7 2).2 (Or.inl rfl)⟩

/-- Claim C3 counterexample: `CalcVelocity` never consults
`bUseSeparateBrakingFriction`.  With strafing active on the ground and
the separate-braking-friction option enabled, the base solver receives
`GroundFrictionStrafing` (3), not `BrakingFrictionStrafing` (5) as the
claim states. -/
theorem calcVelocity_separate_braking_counterexample :
    (⟨3, 5, true, true, true⟩ : StrafeMovementState).bUseSeparateBrakingFriction = true
    ∧ (⟨3, 5, true, true, true⟩ : StrafeMovementState).bIsStrafing = true
    ∧ (⟨3, 5, true, true, true⟩ : StrafeMovementState).bIsMovingOnGround = true
    ∧ (CalcVelocity ⟨3, 5, true, true, true⟩ 1 7 false 2).Friction
        = (⟨3, 5, true, true, true⟩ : StrafeMovementState).GroundFrictionStrafing
    ∧ (CalcVelocity ⟨3, 5, true, true, true⟩ 1 7 false 2).Friction
        ≠ (⟨3, 5, true, true, true⟩ : StrafeMovementState).BrakingFrictionStrafing := by
  refine ⟨rfl, rfl, rfl, rfl, ?_⟩
  decide

/-- Claim C3 (amended): in `CalcVelocity`, when strafing and on the
ground, the friction input to the base solver is always substituted
with `GroundFrictionStrafing`, regardless of the
separate-braking-friction option; otherwise the inputs are delegated
unchanged. -/
theorem calcVelocity_ground_friction_substitution
    (s : StrafeMovementState) (dt f : ℚ) (fl : Bool) (bd : ℚ) :
    (s.bIsStrafing = true → s.bIsMovingOnGround = true →
      CalcVelocity s dt f fl bd = ⟨dt, s.GroundFrictionStrafing, fl, bd⟩)
    ∧ ((s.bIsStrafing = false ∨ s.bIsMovingOnGround = false) →
      CalcVelocity s dt f fl bd = ⟨dt, f, fl, bd⟩) := by
  constructor
  · intro h1 h2
    simp [CalcVelocity, h1, h2]
  · rintro (h | h) <;> simp [CalcVelocity, h]

/-- Witness for amended claim C3 at concrete inputs. -/
theorem calcVelocity_ground_friction_substitution_witness :
    CalcVelocity ⟨3, 5, true, true, true⟩ 1 7 false 2 = ⟨1, 3, false, 2⟩ ∧
    CalcVelocity ⟨3, 5, true, true, false⟩ 1 7 false 2 = ⟨1, 7, false, 2⟩ :=
  ⟨(calcVelocity_ground_friction_substitution ⟨3, 5, true, true, true⟩ 1 7 false 2).1 rfl rfl,
   (calcVelocity_ground_friction_substitution ⟨3, 5, true, true, false⟩ 1 7 false 2).2 (Or.inr rfl)⟩

/-- Claim C10: in both overrides only the `Friction` argument is ever
substituted — `DeltaTime`, `bFluid` and `BrakingDeceleration` are
forwarded to the base implementation unchanged in all cases. -/
theorem only_friction_is_substituted
    (s : StrafeMovementState) (dt f : ℚ) (fl : Bool) (bd : ℚ) :
    (CalcVelocity s dt f fl bd).DeltaTime = dt
    ∧ (CalcVelocity s dt f fl bd).bFluid = fl
    ∧ (CalcVelocity s dt f fl bd).BrakingDeceleration = bd
    ∧ (ApplyVelocityBraking s dt f bd).DeltaTime = dt
    ∧ (ApplyVelocityBraking s dt f bd).BrakingDeceleration = bd := by
  refine ⟨?_, ?_, ?_, ?_, ?_⟩ <;> simp [CalcVelocity, ApplyVelocityBraking]

/-- Claim C4: decoding the encoded compressed-flags byte restores
exactly the flag state that was encoded, for every combination of the
named boolean flags. -/
theorem compressedFlags_roundtrip (f : FlagState) :
    UpdateFromCompressedFlags (GetCompressedFlags f) = f := by
  obtain ⟨a, b, c, d⟩ := f
  cases a <;> cases b <;> cases c <;> cases d <;> decide

/-- Claim C7: `CanStrafeInCurrentState` returns true exactly when the
base locomotion state is walking or falling, and false for every other
base state. -/
theorem canStrafeInCurrentState_iff (m : MovementMode) :
    CanStrafeInCurrentState m = true ↔
      (m = MovementMode.Walking ∨ m = MovementMode.Falling) := by
  cases m <;> simp [CanStrafeInCurrentState]

/-- Witness for claim C7: the gate accepts walking. -/
theorem canStrafeInCurrentState_iff_witness :
    CanStrafeInCurrentState MovementMode.Walking = true :=
  (canStrafeInCurrentState_iff MovementMode.Walking).mpr (Or.inl rfl)

end Strafe

namespace Strafe

/-- Claim C5 counterexample: the claim quantifies over "any state", but
from a base state where the gate rejects (swimming), two successive
`RequestMode` calls fire zero "started" callbacks, not exactly one. -/
theorem requestMode_twice_counterexample :
    (RequestMode ⟨MovementMode.Swimming, false, false⟩).2 ++
      (RequestMode (RequestMode ⟨MovementMode.Swimming, false, false⟩).1).2 = []
    ∧ (RequestMode ⟨MovementMode.Swimming, false, false⟩).2 ++
      (RequestMode (RequestMode ⟨MovementMode.Swimming, false, false⟩).1).2
      ≠ [ModeEvent.started] := by
  decide

/-- Claim C5 (amended): two successive `RequestMode` calls fire at most
one "started" callback — exactly one when the gate allows entry and
the mode was not already active — and always leave `wantsStrafe`
true; requesting an already-active mode fires no callback and keeps it
active, and cancelling an already-inactive mode fires no callback and
keeps it inactive. -/
theorem requestMode_idempotent (s : CtrlState) :
    (RequestMode (RequestMode s).1).1.wantsStrafe = true
    ∧ ((RequestMode s).2 ++ (RequestMode (RequestMode s).1).2).count
        ModeEvent.started ≤ 1
    ∧ (CanStrafeInCurrentState s.baseMode = true → s.strafeActive = false →
        (RequestMode s).2 ++ (RequestMode (RequestMode s).1).2 = [ModeEvent.started])
    ∧ (s.strafeActive = true →
        (RequestMode s).1.strafeActive = true ∧ (RequestMode s).2 = [])
    ∧ (∀ fits : Bool, s.strafeActive = false →
        (CancelMode fits s).1.strafeActive = false ∧ (CancelMode fits s).2 = []) := by
  obtain ⟨bm, w, a⟩ := s
  cases bm <;> cases w <;> cases a <;> decide

/-- Witness for amended claim C5: from inactive walking, two requests
fire exactly one "started" callback. -/
theorem requestMode_idempotent_witness :
    (RequestMode ⟨MovementMode.Walking, false, false⟩).2 ++
      (RequestMode (RequestMode ⟨MovementMode.Walking, false, false⟩).1).2
      = [ModeEvent.started] :=
  (requestMode_idempotent ⟨MovementMode.Walking, false, false⟩).2.2.1 rfl rfl

/-- Claim C6: requesting the mode from a base state where the gate
rejects raises no error (the transition function is total): the mode
stays inactive, no callback fires, and the only observable effects are
the intent bit and a subsequent `IsModeActive()` poll. -/
theorem requestMode_gating (s : CtrlState)
    (hGate : CanStrafeInCurrentState s.baseMode = false)
    (hInactive : s.strafeActive = false) :
    (RequestMode s).1.strafeActive = false
    ∧ (RequestMode s).2 = []
    ∧ (RequestMode s).1.wantsStrafe = true := by
  simp [RequestMode, hGate, hInactive]

/-- Witness for claim C6: a request while swimming is rejected silently. -/
theorem requestMode_gating_witness :
    (RequestMode ⟨MovementMode.Swimming, true, false⟩).1.strafeActive = false
    ∧ (RequestMode ⟨MovementMode.Swimming, true, false⟩).2 = []
    ∧ (RequestMode ⟨MovementMode.Swimming, true, false⟩).1.wantsStrafe = true :=
  requestMode_gating ⟨MovementMode.Swimming, true, false⟩ (by decide) rfl

/-- Claim C8: while the mode is active and every geometric-fit check
fails, no tick deactivates the mode and no callback fires; as soon as
one tick's check succeeds, the mode deactivates and "ended" fires
exactly once over the whole tick sequence. -/
theorem cancelMode_deferred_until_fit (fits : List Bool) (s : CtrlState)
    (h : s.strafeActive = true) :
    (retryCancel fits s).2 = (if fits.any id then [ModeEvent.ended] else [])
    ∧ (retryCancel fits s).1.strafeActive = !(fits.any id) := by
  induction fits generalizing s with
  | nil => exact ⟨rfl, by simp [retryCancel, h]⟩
  | cons f fs ih =>
    cases f with
    | true =>
      have hc1 : (CancelMode true s).1 =
          { s with wantsStrafe := false, strafeActive := false } := by
        simp [CancelMode, h]
      have hc2 : (CancelMode true s).2 = [ModeEvent.ended] := by
        simp [CancelMode, h]
      have hin := retryCancel_inactive fs
        { s with wantsStrafe := false, strafeActive := false } rfl
      simp only [retryCancel, hc1, hc2]
      exact ⟨by simp [hin.2], by simp [hin.1]⟩
    | false =>
      have hc1 : (CancelMode false s).1 = { s with wantsStrafe := false } := by
        simp [CancelMode, h]
      have hc2 : (CancelMode false s).2 = [] := by
        simp [CancelMode, h]
      have ihs := ih { s with wantsStrafe := false } h
      simp only [retryCancel, hc1, hc2]
      exact ⟨by simpa using ihs.1, by simpa using ihs.2⟩

/-- Witness for claim C8: two failed fit checks defer the exit, the
third succeeds and fires "ended" exactly once. -/
theorem cancelMode_deferred_until_fit_witness :
    (retryCancel [false, false, true] ⟨MovementMode.Walking, false, true⟩).2
      = [ModeEvent.ended]
    ∧ (retryCancel [false, false, true]
        ⟨MovementMode.Walking, false, true⟩).1.strafeActive = false := by
  have h := cancelMode_deferred_until_fit [false, false, true]
    ⟨MovementMode.Walking, false, true⟩ rfl
  exact ⟨by simpa using h.1, by simpa using h.2⟩

/-- Claim C1: if the prediction buffer holds a move at the
authoritative timestamp whose recorded state disagrees with the
authoritative state, reconciliation replaces the client's state at
that timestamp by the authoritative state and regenerates every later
buffered move by resimulating from the authoritative state, rather
than keeping stale copies. -/
theorem reconcile_convergence (pre : List SavedMove) (m : SavedMove)
    (post : List SavedMove) (T : ℕ) (auth : CtrlState)
    (hpre : ∀ m' ∈ pre, m'.timestamp ≠ T)
    (hT : m.timestamp = T) (hdis : m.state ≠ auth) :
    reconcile T auth (pre ++ m :: post)
      = pre ++ ({ m with state := auth } :: resimulate auth post) := by
  induction pre with
  | nil =>
    simp only [List.nil_append, reconcile]
    rw [if_pos hT, if_neg hdis]
  | cons p ps ih =>
    have hp : p.timestamp ≠ T := hpre p (List.mem_cons_self p ps)
    have ih2 := ih fun m' hm' => hpre m' (List.mem_cons_of_mem p hm')
    simp only [List.cons_append, reconcile]
    rw [if_neg hp]
    exact congrArg (List.cons p) ih2

/-- Witness for claim C1: an acknowledged move, a diverged move at
timestamp 2, and one later move; reconciliation rewrites the diverged
entry to the authoritative state and resimulates the tail from it. -/
theorem reconcile_convergence_witness :
    reconcile 2 authState ([moveAck] ++ moveDiverged :: [moveStale])
      = [moveAck] ++
        ({ moveDiverged with state := authState } :: resimulate authState [moveStale]) :=
  reconcile_convergence [moveAck] moveDiverged [moveStale] 2 authState
    (by decide) rfl (by decide)

/-- Claim C9: the per-tick simulation and saved-move recording are
deterministic — two replays of equal `(input, deltaTime)` sequences
from equal starting states and start times produce identical
SavedMove sequences. -/
theorem replayMoves_deterministic (s1 s2 : CtrlState) (t1 t2 : ℕ)
    (l1 l2 : List (Bool × ℕ))
    (hs : s1 = s2) (ht : t1 = t2) (hl : l1 = l2) :
    replayMoves s1 t1 l1 = replayMoves s2 t2 l2 := by
  subst hs ht hl
  rfl

/-- Witness for claim C9: a concrete two-tick replay equals its rerun. -/
theorem replayMoves_deterministic_witness :
    replayMoves ⟨MovementMode.Walking, false, false⟩ 0 [(true, 1), (false, 1)]
      = replayMoves ⟨MovementMode.Walking, false, false⟩ 0 [(true, 1), (false, 1)] :=
  replayMoves_deterministic ⟨MovementMode.Walking, false, false⟩
    ⟨MovementMode.Walking, false, false⟩ 0 0 [(true, 1), (false, 1)]
    [(true, 1), (false, 1)] rfl rfl rfl

end Strafe
